import Mathlib

/-!
Shallow embedding of the color model and sub-cell canvas/compositor of
`src/entry.cpp` (a terminal graphics demo built on termbox).

Machine integers are modelled as `Nat`/`Int`: `uint16_t` casts are `% 65536`
(`Int.emod` for possibly negative operands), `uint8_t` casts are `% 256`.
C++ `int` arithmetic on the small values involved never overflows, so it is
modelled as exact `Int`/`Nat` arithmetic.  C++ integer division truncates
toward zero, i.e. `Int.tdiv`.

Constants from the external `termbox.h` header used by the code:
`TB_DEFAULT = 0x00` and `TB_REVERSE = 0x0400`.
-/

/-- termbox default-color sentinel (`TB_DEFAULT` in termbox.h). -/
def TB_DEFAULT : Nat := 0x00

/-- termbox reverse-video attribute bit (`TB_REVERSE` in termbox.h). -/
def TB_REVERSE : Nat := 0x0400

/-- the half-block glyph `L'▄'` (entry.cpp line 24). -/
def Pixel : Nat := 0x2584

/-- the blank glyph `' '` (entry.cpp line 25). -/
def EmptyCell : Nat := 32

/-- the generic `clamp(val, lo, hi)` helper (entry.cpp lines 42-52). -/
def clamp (val lo hi : Int) : Int :=
  if val < lo then lo
  else if hi < val then hi
  else val

/-- `struct SOG`: a shade-of-gray level held in a `uint8_t` field
(entry.cpp lines 73-97).  All construction goes through the clamping
constructor `SOG.make`, so `attr` is always in `[0, 23]`. -/
structure SOG where
  attr : Nat
deriving DecidableEq, Repr

/-- the `SOG(int attr)` constructor: `attr{uint8_t(clamp(attr, 0, 0x17))}`
(entry.cpp line 76). -/
def SOG.make (attr : Int) : SOG :=
  SOG.mk (clamp attr 0 0x17).toNat

/-- `SOG::Black` is `SOG{0}` (entry.cpp line 364). -/
def SOG.Black : SOG := SOG.make 0

/-- `operator + (const SOG&, const SOG&)`: `lhs.attr + rhs.attr`, converted
back through the clamping constructor (entry.cpp lines 99-102). -/
def SOG.add (lhs rhs : SOG) : SOG :=
  SOG.make (lhs.attr + rhs.attr)

/-- `operator - (const SOG&, const SOG&)`: `lhs.attr - rhs.attr` as an `int`
(may be negative), converted through the clamping constructor
(entry.cpp lines 104-107). -/
def SOG.sub (lhs rhs : SOG) : SOG :=
  SOG.make ((lhs.attr : Int) - (rhs.attr : Int))

/-- `SOG::operator + (T rhs)` at an integer scalar: `attr + rhs` converted
through the clamping constructor (entry.cpp lines 78-82). -/
def SOG.addScalar (s : SOG) (n : Int) : SOG :=
  SOG.make ((s.attr : Int) + n)

/-- `SOG::operator * (T rhs)` at an integer scalar: `attr * rhs` converted
through the clamping constructor (entry.cpp lines 84-88). -/
def SOG.mulScalar (s : SOG) (n : Int) : SOG :=
  SOG.make ((s.attr : Int) * n)

/-- `SOG::operator / (T rhs)` at an integer scalar: `attr / rhs` (truncating
`int` division, undefined for `rhs = 0`, hence `none` there) converted
through the clamping constructor (entry.cpp lines 90-94). -/
def SOG.divScalar (s : SOG) (n : Int) : Option SOG :=
  if n = 0 then none
  else some (SOG.make (Int.tdiv (s.attr : Int) n))

/-- `struct TermRGB`: three `uint8_t` channels (entry.cpp lines 112-141).
All construction goes through the clamping constructor `TermRGB.make`, so
each channel is always in `[0, 5]`. -/
structure TermRGB where
  r : Nat
  g : Nat
  b : Nat
deriving DecidableEq, Repr

/-- the `TermRGB(int r, int g, int b)` constructor: each channel is
`clamp(channel, 0, 5)` (entry.cpp lines 113-118). -/
def TermRGB.make (r g b : Int) : TermRGB :=
  TermRGB.mk (clamp r 0 5).toNat (clamp g 0 5).toNat (clamp b 0 5).toNat

/-- `operator + (const TermRGB&, const TermRGB&)`: channel-wise sum fed back
through the clamping constructor (entry.cpp lines 143-146). -/
def TermRGB.add (lhs rhs : TermRGB) : TermRGB :=
  TermRGB.make (lhs.r + rhs.r) (lhs.g + rhs.g) (lhs.b + rhs.b)

/-- `operator - (const TermRGB&, const TermRGB&)`: channel-wise `int`
difference (may be negative) fed back through the clamping constructor
(entry.cpp lines 148-151). -/
def TermRGB.sub (lhs rhs : TermRGB) : TermRGB :=
  TermRGB.make ((lhs.r : Int) - rhs.r) ((lhs.g : Int) - rhs.g)
    ((lhs.b : Int) - rhs.b)

/-- `TermRGB::operator * (T n)` at an integer scalar: each channel is
`static_cast<uint8_t>(channel * n)` (a mod-256 cast) fed back through the
clamping constructor (entry.cpp lines 120-128). -/
def TermRGB.mulScalar (t : TermRGB) (n : Int) : TermRGB :=
  TermRGB.make ((t.r : Int) * n % 256) ((t.g : Int) * n % 256)
    ((t.b : Int) * n % 256)

/-- `TermRGB::operator / (T n)` at an integer scalar: each channel is
`static_cast<uint8_t>(channel / n)` (truncating `int` division, undefined
for `n = 0`, hence `none` there) fed back through the clamping constructor
(entry.cpp lines 130-138). -/
def TermRGB.divScalar (t : TermRGB) (n : Int) : Option TermRGB :=
  if n = 0 then none
  else some (TermRGB.make (Int.tdiv (t.r : Int) n % 256)
    (Int.tdiv (t.g : Int) n % 256) (Int.tdiv (t.b : Int) n % 256))

/-- `Color::RGBBase = 0x10` (entry.cpp line 362). -/
def RGBBase : Nat := 0x10

/-- `Color::ShadeOfGrayBase = 0xe8` (entry.cpp line 361). -/
def ShadeOfGrayBase : Nat := 0xe8

/-- `class Color`: a 16-bit terminal color code (entry.cpp lines 156-327). -/
structure Color where
  attr : Nat
deriving DecidableEq, Repr

/-- the raw `Color(int attr)` constructor: `static_cast<uint16_t>(attr)`
with no clamping (entry.cpp line 176). -/
def Color.ofInt (attr : Int) : Color :=
  Color.mk (attr % 65536).toNat

/-- `Color::Default` is `Color{TB_DEFAULT}` (entry.cpp line 352). -/
def Color.Default : Color := Color.ofInt (TB_DEFAULT : Nat)

/-- the `Color(SOG sog)` constructor: `attr = sog.attr + ShadeOfGrayBase`
(entry.cpp line 177; the `uint16_t` cast never truncates since
`sog.attr <= 255`). -/
def Color.ofSOG (sog : SOG) : Color :=
  Color.mk (sog.attr + ShadeOfGrayBase)

/-- `Color::toTerm(int c)`: `int(clamp(c, 0, 0xff) * 6.0 / 256.0)`
(entry.cpp lines 171-174).  For `k` in `[0, 255]` the double value
`k * 6.0 / 256.0` is exact (`3k/128` with `3k < 2^10`), so truncation to
`int` equals the integer division `k * 6 / 256`. -/
def Color.toTerm (c : Int) : Nat :=
  (clamp c 0 0xff).toNat * 6 / 256

/-- the `Color(uint16_t red, uint16_t green, uint16_t blue)` constructor:
`attr = RGBBase + 36*toTerm(red) + 6*toTerm(green) + toTerm(blue)`
(entry.cpp lines 180-184).  The `uint16_t` parameter conversion is the
mod-65536 cast. -/
def Color.ofRGB8 (red green blue : Int) : Color :=
  Color.mk (RGBBase + 36 * Color.toTerm (red % 65536)
    + 6 * Color.toTerm (green % 65536) + Color.toTerm (blue % 65536))

/-- the `Color(const TermRGB &rgb)` constructor:
`attr = RGBBase + 36*rgb.r + 6*rgb.g + rgb.b` (entry.cpp lines 185-188). -/
def Color.ofTermRGB (rgb : TermRGB) : Color :=
  Color.mk (RGBBase + 36 * rgb.r + 6 * rgb.g + rgb.b)

/-- `Color::reversed()`: `attr | TB_REVERSE` (entry.cpp lines 194-197). -/
def Color.reversed (c : Color) : Color :=
  Color.mk (c.attr ||| TB_REVERSE)

/-- `Color::isTClr()`: `attr < RGBBase` (entry.cpp lines 199-202). -/
def Color.isTClr (c : Color) : Bool :=
  decide (c.attr < RGBBase)

/-- `Color::makeTClr(int tclr)` (entry.cpp lines 203-212). -/
def Color.makeTClr (tclr : Int) : Color :=
  if tclr < 0 then Color.ofInt 0
  else if (RGBBase : Int) ≤ tclr then Color.ofInt ((RGBBase : Int) - 1)
  else Color.ofInt tclr

/-- `Color::isRGB()`: `attr >= RGBBase and attr < ShadeOfGrayBase`
(entry.cpp lines 214-217). -/
def Color.isRGB (c : Color) : Bool :=
  decide (RGBBase ≤ c.attr ∧ c.attr < ShadeOfGrayBase)

/-- `Color::toRGB()`: decode `term = attr - RGBBase` into channels
`term/36, term/6 % 6, term % 6`, fed through the clamping `TermRGB`
constructor (entry.cpp lines 219-223; only called when `isRGB`). -/
def Color.toRGB (c : Color) : TermRGB :=
  TermRGB.make ((c.attr - RGBBase : Nat) / 36) ((c.attr - RGBBase : Nat) / 6 % 6)
    ((c.attr - RGBBase : Nat) % 6)

/-- `Color::isSOG()`: `attr >= ShadeOfGrayBase and attr < 0x100`
(entry.cpp lines 226-229). -/
def Color.isSOG (c : Color) : Bool :=
  decide (ShadeOfGrayBase ≤ c.attr ∧ c.attr < 0x100)

/-- `Color::toSOG()`: `attr - ShadeOfGrayBase` as an `int` (may be negative
when not `isSOG`), fed through the clamping `SOG` constructor
(entry.cpp lines 231-234). -/
def Color.toSOG (c : Color) : SOG :=
  SOG.make ((c.attr : Int) - (ShadeOfGrayBase : Nat))

/-- `Color::makeSOG(int sog)` (entry.cpp lines 236-245). -/
def Color.makeSOG (sog : Int) : Color :=
  if sog < 0 then Color.ofInt (ShadeOfGrayBase : Nat)
  else if (0xff : Int) - (ShadeOfGrayBase : Nat) < sog then Color.ofInt 0xff
  else Color.ofInt (sog + (ShadeOfGrayBase : Nat))

/-- `operator + (const Color&, const Color&)` (entry.cpp lines 329-338). -/
def Color.add (lhs rhs : Color) : Color :=
  if lhs.isRGB && rhs.isRGB then Color.ofTermRGB (TermRGB.add lhs.toRGB rhs.toRGB)
  else if lhs.isSOG && rhs.isSOG then Color.ofSOG (SOG.add lhs.toSOG rhs.toSOG)
  else rhs

/-- `operator - (const Color&, const Color&)` (entry.cpp lines 340-349). -/
def Color.sub (lhs rhs : Color) : Color :=
  if lhs.isRGB && rhs.isRGB then Color.ofTermRGB (TermRGB.sub lhs.toRGB rhs.toRGB)
  else if lhs.isSOG && rhs.isSOG then Color.ofSOG (SOG.sub lhs.toSOG rhs.toSOG)
  else rhs

/-- `Color::operator + (T n)` at an integer scalar (entry.cpp lines
250-260): base-range colors go through `makeTClr(attr + n)`, grayscale
through `toSOG() + n`, everything else is returned unchanged. -/
def Color.addScalar (c : Color) (n : Int) : Color :=
  if c.isTClr then Color.makeTClr ((c.attr : Int) + n)
  else if c.isSOG then Color.ofSOG (SOG.addScalar c.toSOG n)
  else c

/-- `Color::operator - (T n)`: `*this + (-n)` (entry.cpp lines 262-266). -/
def Color.subScalar (c : Color) (n : Int) : Color :=
  Color.addScalar c (-n)

/-- `Color::operator ++ ()`: `*this += 1` (entry.cpp line 278). -/
def Color.incr (c : Color) : Color :=
  Color.addScalar c 1

/-- `Color::operator -- ()`: `*this -= 1` (entry.cpp line 280). -/
def Color.decr (c : Color) : Color :=
  Color.subScalar c 1

/-- `Color::operator * (T n)` at an integer scalar (entry.cpp lines
283-293). -/
def Color.mulScalar (c : Color) (n : Int) : Color :=
  if c.isRGB then Color.ofTermRGB (TermRGB.mulScalar c.toRGB n)
  else if c.isSOG then Color.ofSOG (SOG.mulScalar c.toSOG n)
  else c

/-- `Color::operator / (T n)` at an integer scalar (entry.cpp lines
294-304): RGB and grayscale colors reach the channel/level division with no
zero-divisor guard (undefined behavior at `n = 0`, modelled as `none`);
everything else is returned unchanged without dividing. -/
def Color.divScalar (c : Color) (n : Int) : Option Color :=
  if c.isRGB then (TermRGB.divScalar c.toRGB n).map Color.ofTermRGB
  else if c.isSOG then (SOG.divScalar c.toSOG n).map Color.ofSOG
  else some c

/-- `Color::blackToDefault(Color defolt)` (entry.cpp lines 316-323):
the RGB-region zero `Color{0,0,0}` and the grayscale zero `SOG::Black`
map to `defolt`, everything else is unchanged. -/
def Color.blackToDefault (c : Color) (defolt : Color) : Color :=
  if (c.isRGB && decide (c = Color.ofRGB8 0 0 0))
      || (c.isSOG && decide (c = Color.ofSOG SOG.Black)) then defolt
  else c

/-- one terminal cell-write emitted through `tb_change_cell(col, row, glyph,
fg, bg)`: the glyph codepoint, foreground and background colors. -/
structure CellWrite where
  glyph : Nat
  fg : Color
  bg : Color
deriving DecidableEq, Repr

/-- `class Display`: the canvas, a flat `width * height` buffer of `Color`
at double vertical pixel density, modelled as an index-to-color function
over the flat `valarray` (entry.cpp lines 395-524).  `height` counts pixel
rows. -/
structure Display where
  width : Nat
  height : Nat
  cells : Nat → Color
  bg : Color

/-- the `Display(size_t width, size_t height, Color bg)` constructor:
buffer of `width * height` cells all filled with `bg`
(entry.cpp lines 401-402). -/
def Display.make (width height : Nat) (bg : Color) : Display :=
  Display.mk width height (fun _ => bg) bg

/-- `Display::getIndex(int x, int y)`: `y * width + x`
(entry.cpp lines 513-516). -/
def Display.getIndex (d : Display) (x y : Nat) : Nat :=
  y * d.width + x

/-- `Display::putPoint(int x, int y, Color color)` (entry.cpp lines
414-420): silently clips out-of-bounds coordinates, otherwise writes at
`cells[getIndex(x, y)]`. -/
def Display.putPoint (d : Display) (x y : Int) (color : Color) : Display :=
  if x < 0 ∨ y < 0 ∨ (d.width : Int) ≤ x ∨ (d.height : Int) ≤ y then d
  else Display.mk d.width d.height
    (fun i => if i = d.getIndex x.toNat y.toNat then color else d.cells i) d.bg

/-- `Display::getPoint(int x, int y)` (entry.cpp lines 457-463): returns
`Color::Default` out of bounds, otherwise reads `cells[getIndex(x, y)]`. -/
def Display.getPoint (d : Display) (x y : Int) : Color :=
  if x < 0 ∨ y < 0 ∨ (d.width : Int) ≤ x ∨ (d.height : Int) ≤ y then Color.Default
  else d.cells (d.getIndex x.toNat y.toNat)

/-- the body of the pixel-compositing loop of `Display::display`
(entry.cpp lines 487-502) for the terminal cell at `(col, cellRow)`, i.e.
pixel rows `row = 2*cellRow` and `row + 1`: the single
`tb_change_cell(col, row/2, ...)` it performs. -/
def Display.compositeCell (d : Display) (col cellRow : Nat) : CellWrite :=
  let top := d.getPoint (col : Int) ((2 * cellRow : Nat) : Int)
  let bot := d.getPoint (col : Int) ((2 * cellRow + 1 : Nat) : Int)
  if bot = Color.Default then
    if bot = top then CellWrite.mk EmptyCell bot top
    else CellWrite.mk Pixel (Color.reversed top) bot
  else CellWrite.mk Pixel bot top

/-- the full pixel-compositing double loop of `Display::display`
(entry.cpp lines 485-504): for every `col < width` and every pixel row
`row < height` stepping by 2 it emits one cell-write at terminal cell
`(col, row / 2)`; the loop visits cell rows `0, ..., ceil(height/2) - 1`. -/
def Display.displayWrites (d : Display) : List (Nat × Nat × CellWrite) :=
  (List.range d.width).flatMap (fun col =>
    (List.range ((d.height + 1) / 2)).map (fun cellRow =>
      (col, cellRow, d.compositeCell col cellRow)))

/-- Modelled from the spec, for comparison with the source compositor: the
per-cell rules of `composite()` exactly as §4.2 states them, in order:
(1) if `bot == Default` and `bot == top`, a blank glyph with both
foreground and background equal to `bot`; (2) else if `bot == Default`,
the half-block glyph with foreground `top.reversed()` and background
`bot`; (3) else the half-block glyph with foreground `bot` and background
`top`. -/
def compositeSpecRules (top bot : Color) : CellWrite :=
  if bot = Color.Default ∧ top = bot then CellWrite.mk EmptyCell bot bot
  else if bot = Color.Default then CellWrite.mk Pixel (Color.reversed top) bot
  else CellWrite.mk Pixel bot top

/-! Helper lemmas shared by the claim theorems. -/

/-- region predicate unfolding for `isRGB`. -/
theorem Color.isRGB_iff (c : Color) :
    c.isRGB = true ↔ RGBBase ≤ c.attr ∧ c.attr < ShadeOfGrayBase := by
  simp [Color.isRGB]

/-- region predicate unfolding for `isSOG`. -/
theorem Color.isSOG_iff (c : Color) :
    c.isSOG = true ↔ ShadeOfGrayBase ≤ c.attr ∧ c.attr < 0x100 := by
  simp [Color.isSOG]

/-- region predicate unfolding for `isTClr`. -/
theorem Color.isTClr_iff (c : Color) : c.isTClr = true ↔ c.attr < RGBBase := by
  simp [Color.isTClr]

/-- the clamping `TermRGB` constructor on natural inputs is channel-wise
`min` with 5. -/
theorem TermRGB.make_eq_min_channels (r g b : Nat) :
    TermRGB.make (r : Int) (g : Int) (b : Int) =
      TermRGB.mk (min r 5) (min g 5) (min b 5) := by
  unfold TermRGB.make clamp
  split_ifs <;> simp <;> omega

/-- the clamping `SOG` constructor on a natural input is `min` with 23. -/
theorem SOG.make_eq_min_level (a : Nat) :
    SOG.make (a : Int) = SOG.mk (min a 23) := by
  unfold SOG.make clamp
  split_ifs <;> simp <;> omega

/-- decoding an RGB-region code yields the quotient/remainder channels. -/
theorem Color.toRGB_eq (c : Color) (h : c.isRGB = true) :
    c.toRGB = TermRGB.mk ((c.attr - RGBBase) / 36) ((c.attr - RGBBase) / 6 % 6)
      ((c.attr - RGBBase) % 6) := by
  rw [Color.isRGB_iff] at h
  unfold RGBBase ShadeOfGrayBase at h
  unfold Color.toRGB TermRGB.make clamp RGBBase
  simp only [TermRGB.mk.injEq]
  refine ⟨?_, ?_, ?_⟩ <;> split_ifs <;> omega

/-- the decoded channels of an RGB-region code are each at most 5. -/
theorem Color.toRGB_le (c : Color) (h : c.isRGB = true) :
    c.toRGB.r ≤ 5 ∧ c.toRGB.g ≤ 5 ∧ c.toRGB.b ≤ 5 := by
  have he := Color.toRGB_eq c h
  rw [Color.isRGB_iff] at h
  unfold RGBBase ShadeOfGrayBase at h
  rw [he]
  unfold RGBBase
  refine ⟨?_, ?_, ?_⟩ <;> simp <;> omega

/-- decoding a grayscale-region code yields the level `attr - base`,
at most 23. -/
theorem Color.toSOG_eq (c : Color) (h : c.isSOG = true) :
    c.toSOG = SOG.mk (c.attr - ShadeOfGrayBase) ∧
    c.attr - ShadeOfGrayBase ≤ 23 := by
  rw [Color.isSOG_iff] at h
  unfold ShadeOfGrayBase at h
  unfold Color.toSOG SOG.make clamp ShadeOfGrayBase
  constructor
  · simp only [SOG.mk.injEq]
    split_ifs <;> omega
  · omega

/-- `toTerm` always lands in the terminal cube range `[0, 5]`. -/
theorem Color.toTerm_le_five (c : Int) : Color.toTerm c ≤ 5 := by
  unfold Color.toTerm clamp
  split_ifs <;> omega

/-- a grayscale-region color is not RGB-region. -/
theorem Color.isRGB_eq_false_of_isSOG (c : Color) (h : c.isSOG = true) :
    c.isRGB = false := by
  rw [Color.isSOG_iff] at h
  unfold ShadeOfGrayBase at h
  simp [Color.isRGB, RGBBase, ShadeOfGrayBase]
  omega

/-- an RGB-region color is neither base-range nor grayscale-region. -/
theorem Color.not_tclr_not_sog_of_isRGB (c : Color) (h : c.isRGB = true) :
    c.isTClr = false ∧ c.isSOG = false := by
  rw [Color.isRGB_iff] at h
  unfold RGBBase ShadeOfGrayBase at h
  constructor
  · simp [Color.isTClr, RGBBase]; omega
  · simp [Color.isSOG, ShadeOfGrayBase]; omega

/-- C3: for every pair of colors that are not both RGB-region and not both
grayscale-region (any base-range operand and any mixed-region pair
included), both `add` and `sub` return the right-hand operand unchanged. -/
theorem add_sub_mixed_passthrough (a b : Color)
    (hrgb : ¬ (a.isRGB = true ∧ b.isRGB = true))
    (hsog : ¬ (a.isSOG = true ∧ b.isSOG = true)) :
    Color.add a b = b ∧ Color.sub a b = b := by
  have h1 : (a.isRGB && b.isRGB) = false := by
    cases hx : a.isRGB <;> cases hy : b.isRGB <;> simp_all
  have h2 : (a.isSOG && b.isSOG) = false := by
    cases hx : a.isSOG <;> cases hy : b.isSOG <;> simp_all
  constructor
  · unfold Color.add
    rw [h1, h2]
    simp
  · unfold Color.sub
    rw [h1, h2]
    simp

/-- witness for C3 at a base-range left operand and grayscale right
operand. -/
theorem add_sub_mixed_passthrough_witness :
    Color.add (Color.ofInt 2) (Color.makeSOG 5) = Color.makeSOG 5 ∧
    Color.sub (Color.ofInt 2) (Color.makeSOG 5) = Color.makeSOG 5 :=
  add_sub_mixed_passthrough (Color.ofInt 2) (Color.makeSOG 5) (by decide)
    (by decide)

/-- C4: for every two grayscale-region colors, `add` sums their levels and
clamps the result into `[ShadeOfGrayBase, ShadeOfGrayBase + 23]`; in
particular `fromGray(20) + fromGray(20) = fromGray(23)` (saturation, no
wraparound). -/
theorem add_sog_saturates (a b : Color) (ha : a.isSOG = true)
    (hb : b.isSOG = true) :
    (Color.add a b).attr = ShadeOfGrayBase +
      min ((a.attr - ShadeOfGrayBase) + (b.attr - ShadeOfGrayBase)) 23 ∧
    ShadeOfGrayBase ≤ (Color.add a b).attr ∧
    (Color.add a b).attr ≤ ShadeOfGrayBase + 23 ∧
    Color.add (Color.makeSOG 20) (Color.makeSOG 20) = Color.makeSOG 23 := by
  have hna : a.isRGB = false := Color.isRGB_eq_false_of_isSOG a ha
  have hsum : Color.add a b = Color.ofSOG (SOG.add a.toSOG b.toSOG) := by
    unfold Color.add
    rw [hna, ha, hb]
    simp
  obtain ⟨hae, hal⟩ := Color.toSOG_eq a ha
  obtain ⟨hbe, hbl⟩ := Color.toSOG_eq b hb
  have hval : (Color.add a b).attr = ShadeOfGrayBase +
      min ((a.attr - ShadeOfGrayBase) + (b.attr - ShadeOfGrayBase)) 23 := by
    rw [hsum, hae, hbe]
    unfold SOG.add
    simp only [← Nat.cast_add]
    rw [SOG.make_eq_min_level]
    unfold Color.ofSOG
    dsimp only
    omega
  refine ⟨hval, ?_, ?_, by decide⟩ <;> omega

/-- witness for C4 at two concrete grayscale colors. -/
theorem add_sog_saturates_witness :
    (Color.add (Color.makeSOG 5) (Color.makeSOG 9)).attr = ShadeOfGrayBase +
      min ((Color.makeSOG 5).attr - ShadeOfGrayBase +
        ((Color.makeSOG 9).attr - ShadeOfGrayBase)) 23 ∧
    ShadeOfGrayBase ≤ (Color.add (Color.makeSOG 5) (Color.makeSOG 9)).attr ∧
    (Color.add (Color.makeSOG 5) (Color.makeSOG 9)).attr ≤
      ShadeOfGrayBase + 23 ∧
    Color.add (Color.makeSOG 20) (Color.makeSOG 20) = Color.makeSOG 23 :=
  add_sog_saturates (Color.makeSOG 5) (Color.makeSOG 9) (by decide) (by decide)

/-- C5: for every two RGB-region colors, each channel of `add` is the sum of
the corresponding channels clamped independently to `[0, 5]`; in particular
`RGB(5,0,0) + RGB(0,5,0) = RGB(5,5,0)` and
`RGB(5,0,0) + RGB(5,0,0) = RGB(5,0,0)`. -/
theorem add_rgb_saturates (a b : Color) (ha : a.isRGB = true)
    (hb : b.isRGB = true) :
    Color.add a b = Color.ofTermRGB (TermRGB.mk (min (a.toRGB.r + b.toRGB.r) 5)
      (min (a.toRGB.g + b.toRGB.g) 5) (min (a.toRGB.b + b.toRGB.b) 5)) ∧
    Color.add (Color.ofTermRGB (TermRGB.make 5 0 0))
      (Color.ofTermRGB (TermRGB.make 0 5 0)) =
      Color.ofTermRGB (TermRGB.make 5 5 0) ∧
    Color.add (Color.ofTermRGB (TermRGB.make 5 0 0))
      (Color.ofTermRGB (TermRGB.make 5 0 0)) =
      Color.ofTermRGB (TermRGB.make 5 0 0) := by
  refine ⟨?_, by decide, by decide⟩
  unfold Color.add
  rw [ha, hb]
  simp only [Bool.and_self, if_pos]
  unfold TermRGB.add
  simp only [← Nat.cast_add]
  rw [TermRGB.make_eq_min_channels]

/-- witness for C5 at two concrete RGB-region colors. -/
theorem add_rgb_saturates_witness :
    Color.add (Color.ofTermRGB (TermRGB.make 3 4 5))
      (Color.ofTermRGB (TermRGB.make 4 0 2)) =
      Color.ofTermRGB (TermRGB.mk
        (min ((Color.ofTermRGB (TermRGB.make 3 4 5)).toRGB.r +
          (Color.ofTermRGB (TermRGB.make 4 0 2)).toRGB.r) 5)
        (min ((Color.ofTermRGB (TermRGB.make 3 4 5)).toRGB.g +
          (Color.ofTermRGB (TermRGB.make 4 0 2)).toRGB.g) 5)
        (min ((Color.ofTermRGB (TermRGB.make 3 4 5)).toRGB.b +
          (Color.ofTermRGB (TermRGB.make 4 0 2)).toRGB.b) 5)) ∧
    Color.add (Color.ofTermRGB (TermRGB.make 5 0 0))
      (Color.ofTermRGB (TermRGB.make 0 5 0)) =
      Color.ofTermRGB (TermRGB.make 5 5 0) ∧
    Color.add (Color.ofTermRGB (TermRGB.make 5 0 0))
      (Color.ofTermRGB (TermRGB.make 5 0 0)) =
      Color.ofTermRGB (TermRGB.make 5 0 0) :=
  add_rgb_saturates (Color.ofTermRGB (TermRGB.make 3 4 5))
    (Color.ofTermRGB (TermRGB.make 4 0 2)) (by decide) (by decide)

/-- counterexample to C2: the raw `Color(int)` constructor does not clamp;
`Color{256}` produces code 256, which lies in no palette region (not in the
base range `[0, RGBBase)`, not RGB-region, not in the grayscale range
`[ShadeOfGrayBase, ShadeOfGrayBase + 24)`) and is not the Default
sentinel. -/
theorem color_ctor_unclamped_cex :
    ¬ ((Color.ofInt 256).attr < RGBBase ∨ (Color.ofInt 256).isRGB = true ∨
      (ShadeOfGrayBase ≤ (Color.ofInt 256).attr ∧
        (Color.ofInt 256).attr < ShadeOfGrayBase + 24) ∨
      Color.ofInt 256 = Color.Default) := by
  decide

/-- C2 as amended: every construction path other than the raw `Color(int)`
code constructor clamps its channel/level inputs at construction time - the
`SOG` conversion constructor, the 8-bit RGB constructor, the `TermRGB`
conversion constructor, `makeSOG` and `makeTClr` land in their region's
legal range for every integer input; the raw constructor merely truncates
to 16 bits. -/
theorem construction_paths_clamped :
    (∀ s : Int, (Color.ofSOG (SOG.make s)).isSOG = true) ∧
    (∀ r g b : Int, (Color.ofRGB8 r g b).isRGB = true) ∧
    (∀ r g b : Int, (Color.ofTermRGB (TermRGB.make r g b)).isRGB = true) ∧
    (∀ s : Int, (Color.makeSOG s).isSOG = true) ∧
    (∀ t : Int, (Color.makeTClr t).isTClr = true) ∧
    (∀ a : Int, (Color.ofInt a).attr = (a % 65536).toNat) := by
  refine ⟨?_, ?_, ?_, ?_, ?_, ?_⟩
  · intro s
    rw [Color.isSOG_iff]
    unfold Color.ofSOG SOG.make clamp ShadeOfGrayBase
    split_ifs <;> dsimp only <;> omega
  · intro r g b
    rw [Color.isRGB_iff]
    have hr := Color.toTerm_le_five (r % 65536)
    have hg := Color.toTerm_le_five (g % 65536)
    have hb := Color.toTerm_le_five (b % 65536)
    unfold Color.ofRGB8 RGBBase ShadeOfGrayBase
    dsimp only
    omega
  · intro r g b
    rw [Color.isRGB_iff]
    unfold Color.ofTermRGB TermRGB.make clamp RGBBase ShadeOfGrayBase
    split_ifs <;> dsimp only <;> omega
  · intro s
    rw [Color.isSOG_iff]
    unfold Color.makeSOG Color.ofInt ShadeOfGrayBase
    split_ifs <;> dsimp only <;> omega
  · intro t
    rw [Color.isTClr_iff]
    unfold Color.makeTClr Color.ofInt RGBBase
    split_ifs <;> dsimp only <;> omega
  · intro a
    rfl

/-- counterexample to C7: dividing the grayscale color `fromGray(23)` by 0
reaches the unguarded level division (undefined behavior, modelled as
`none`); there is no zero-divisor guard in `scale`/`divide`. -/
theorem div_zero_unguarded_cex :
    Color.divScalar (Color.makeSOG 23) 0 = none := by
  decide

/-- C7 as amended: the divide operation has no zero-divisor guard - for
every RGB-region or grayscale-region color, dividing by 0 reaches the
unguarded channel/level division (undefined behavior, modelled as `none`);
base-range and Default colors bypass the division entirely and are returned
unchanged. -/
theorem div_zero_behavior (c : Color) :
    (c.isRGB = true ∨ c.isSOG = true → Color.divScalar c 0 = none) ∧
    (c.isRGB = false → c.isSOG = false → Color.divScalar c 0 = some c) := by
  constructor
  · rintro (h | h)
    · unfold Color.divScalar TermRGB.divScalar
      rw [h]
      simp
    · have hn : c.isRGB = false := Color.isRGB_eq_false_of_isSOG c h
      unfold Color.divScalar SOG.divScalar
      rw [hn, h]
      simp
  · intro h1 h2
    unfold Color.divScalar
    rw [h1, h2]
    simp

/-- witness for C7's amended claim at a grayscale color and at a base-range
color. -/
theorem div_zero_behavior_witness :
    Color.divScalar (Color.makeSOG 11) 0 = none ∧
    Color.divScalar (Color.ofInt 3) 0 = some (Color.ofInt 3) :=
  ⟨(div_zero_behavior (Color.makeSOG 11)).1 (Or.inr (by decide)),
   (div_zero_behavior (Color.ofInt 3)).2 (by decide) (by decide)⟩

/-- C8: scaling an RGB-region color by 0 yields the RGB zero value
`Color{0,0,0}`, scaling a grayscale color by 0 yields the grayscale zero
level `SOG::Black`; `blackToDefault` maps exactly these two region-zero
codes to the supplied default and leaves every other color unchanged. -/
theorem scale_zero_blackToDefault (c : Color) :
    (c.isRGB = true → Color.mulScalar c 0 = Color.ofRGB8 0 0 0) ∧
    (c.isSOG = true → Color.mulScalar c 0 = Color.ofSOG SOG.Black) ∧
    (c = Color.ofRGB8 0 0 0 ∨ c = Color.ofSOG SOG.Black →
      Color.blackToDefault c Color.Default = Color.Default) ∧
    (c ≠ Color.ofRGB8 0 0 0 → c ≠ Color.ofSOG SOG.Black →
      Color.blackToDefault c Color.Default = c) := by
  refine ⟨?_, ?_, ?_, ?_⟩
  · intro h
    unfold Color.mulScalar TermRGB.mulScalar
    rw [h]
    simp
    decide
  · intro h
    have hn : c.isRGB = false := Color.isRGB_eq_false_of_isSOG c h
    unfold Color.mulScalar SOG.mulScalar
    rw [hn, h]
    simp
    decide
  · rintro (rfl | rfl) <;> decide
  · intro h1 h2
    unfold Color.blackToDefault
    rw [decide_eq_false h1, decide_eq_false h2]
    simp

/-- witness for C8 at concrete RGB-region, grayscale, region-zero and
base-range colors. -/
theorem scale_zero_blackToDefault_witness :
    Color.mulScalar (Color.ofTermRGB (TermRGB.make 3 4 5)) 0 =
      Color.ofRGB8 0 0 0 ∧
    Color.mulScalar (Color.makeSOG 7) 0 = Color.ofSOG SOG.Black ∧
    Color.blackToDefault (Color.ofRGB8 0 0 0) Color.Default = Color.Default ∧
    Color.blackToDefault (Color.ofInt 9) Color.Default = Color.ofInt 9 :=
  ⟨(scale_zero_blackToDefault (Color.ofTermRGB (TermRGB.make 3 4 5))).1
     (by decide),
   (scale_zero_blackToDefault (Color.makeSOG 7)).2.1 (by decide),
   (scale_zero_blackToDefault (Color.ofRGB8 0 0 0)).2.2.1 (Or.inl rfl),
   (scale_zero_blackToDefault (Color.ofInt 9)).2.2.2 (by decide) (by decide)⟩

/-- C9: scalar addition and subtraction, including the increment and
decrement operators, are identities on RGB-region colors. -/
theorem scalar_add_identity_on_rgb (c : Color) (n : Int)
    (h : c.isRGB = true) :
    Color.addScalar c n = c ∧ Color.subScalar c n = c ∧
    Color.incr c = c ∧ Color.decr c = c := by
  obtain ⟨h1, h2⟩ := Color.not_tclr_not_sog_of_isRGB c h
  have key : ∀ m : Int, Color.addScalar c m = c := by
    intro m
    unfold Color.addScalar
    rw [h1, h2]
    simp
  refine ⟨key n, ?_, ?_, ?_⟩
  · unfold Color.subScalar
    exact key (-n)
  · unfold Color.incr
    exact key 1
  · unfold Color.decr Color.subScalar
    exact key (-1)

/-- witness for C9 at a concrete RGB-region color and scalar. -/
theorem scalar_add_identity_on_rgb_witness :
    Color.addScalar (Color.ofTermRGB (TermRGB.make 1 2 3)) 7 =
      Color.ofTermRGB (TermRGB.make 1 2 3) ∧
    Color.subScalar (Color.ofTermRGB (TermRGB.make 1 2 3)) 7 =
      Color.ofTermRGB (TermRGB.make 1 2 3) ∧
    Color.incr (Color.ofTermRGB (TermRGB.make 1 2 3)) =
      Color.ofTermRGB (TermRGB.make 1 2 3) ∧
    Color.decr (Color.ofTermRGB (TermRGB.make 1 2 3)) =
      Color.ofTermRGB (TermRGB.make 1 2 3) :=
  scalar_add_identity_on_rgb (Color.ofTermRGB (TermRGB.make 1 2 3)) 7
    (by decide)

/-- flat indices of distinct in-row coordinates are distinct: `getIndex` is
injective on coordinates whose column is below the width. -/
theorem Display.getIndex_inj (d : Display) (x y x' y' : Nat)
    (hx : x < d.width) (hx' : x' < d.width)
    (h : d.getIndex x y = d.getIndex x' y') : x = x' ∧ y = y' := by
  unfold Display.getIndex at h
  rcases Nat.lt_trichotomy y y' with hlt | heq | hgt
  · exfalso
    have h1 : (y + 1) * d.width ≤ y' * d.width :=
      Nat.mul_le_mul_right _ (by omega : y + 1 ≤ y')
    have h2 : (y + 1) * d.width = y * d.width + d.width := by ring
    omega
  · subst heq
    exact ⟨by omega, rfl⟩
  · exfalso
    have h1 : (y' + 1) * d.width ≤ y * d.width :=
      Nat.mul_le_mul_right _ (by omega : y' + 1 ≤ y)
    have h2 : (y' + 1) * d.width = y' * d.width + d.width := by ring
    omega

/-- C6: `putPoint` at any out-of-bounds coordinate is a no-op - every cell
of the canvas holds the same color before and after - and at any in-bounds
coordinate it writes the color at that cell's index and nowhere else. -/
theorem putPoint_oob_noop (d : Display) (x y : Int) (c : Color) :
    ((x < 0 ∨ y < 0 ∨ (d.width : Int) ≤ x ∨ (d.height : Int) ≤ y) →
      ∀ i : Nat, (d.putPoint x y c).cells i = d.cells i) ∧
    (0 ≤ x → x < (d.width : Int) → 0 ≤ y → y < (d.height : Int) →
      (d.putPoint x y c).cells (d.getIndex x.toNat y.toNat) = c ∧
      ∀ i : Nat, i ≠ d.getIndex x.toNat y.toNat →
        (d.putPoint x y c).cells i = d.cells i) := by
  constructor
  · intro hoob i
    unfold Display.putPoint
    rw [if_pos hoob]
  · intro hx0 hx hy0 hy
    have hin : ¬ (x < 0 ∨ y < 0 ∨ (d.width : Int) ≤ x ∨ (d.height : Int) ≤ y) := by
      omega
    unfold Display.putPoint
    rw [if_neg hin]
    constructor
    · simp
    · intro i hi
      simp [hi]

/-- witness for C6 on a 2x4 canvas: the out-of-bounds writes at `x = -1`
and `x = width` are no-ops, and an in-bounds write lands at its own index
only (index 0 differs from the written index). -/
theorem putPoint_oob_noop_witness :
    (∀ i : Nat, ((Display.make 2 4 Color.Default).putPoint (-1) 0
      (Color.makeSOG 3)).cells i = (Display.make 2 4 Color.Default).cells i) ∧
    (∀ i : Nat, ((Display.make 2 4 Color.Default).putPoint 2 0
      (Color.makeSOG 3)).cells i = (Display.make 2 4 Color.Default).cells i) ∧
    (((Display.make 2 4 Color.Default).putPoint 1 1 (Color.makeSOG 3)).cells
      ((Display.make 2 4 Color.Default).getIndex 1 1) = Color.makeSOG 3 ∧
     ∀ i : Nat, i ≠ (Display.make 2 4 Color.Default).getIndex 1 1 →
       ((Display.make 2 4 Color.Default).putPoint 1 1
         (Color.makeSOG 3)).cells i = (Display.make 2 4 Color.Default).cells i) :=
  ⟨(putPoint_oob_noop (Display.make 2 4 Color.Default) (-1) 0
      (Color.makeSOG 3)).1 (by decide),
   (putPoint_oob_noop (Display.make 2 4 Color.Default) 2 0
      (Color.makeSOG 3)).1 (by decide),
   (putPoint_oob_noop (Display.make 2 4 Color.Default) 1 1
      (Color.makeSOG 3)).2 (by decide) (by decide) (by decide) (by decide)⟩

/-- C10: an in-bounds `putPoint` followed by `getPoint` at the same
coordinate returns exactly the written color, and `getPoint` at every other
in-bounds coordinate returns the same value as before the write. -/
theorem putPoint_getPoint_roundtrip (d : Display) (x y : Int) (c : Color)
    (hx0 : 0 ≤ x) (hx : x < (d.width : Int)) (hy0 : 0 ≤ y)
    (hy : y < (d.height : Int)) :
    (d.putPoint x y c).getPoint x y = c ∧
    ∀ x' y' : Int, 0 ≤ x' → x' < (d.width : Int) → 0 ≤ y' →
      y' < (d.height : Int) → ¬ (x' = x ∧ y' = y) →
      (d.putPoint x y c).getPoint x' y' = d.getPoint x' y' := by
  have hin : ¬ (x < 0 ∨ y < 0 ∨ (d.width : Int) ≤ x ∨ (d.height : Int) ≤ y) := by
    omega
  constructor
  · unfold Display.putPoint Display.getPoint
    rw [if_neg hin, if_neg hin]
    dsimp only [Display.getIndex]
    simp
  · intro x' y' hx0' hx' hy0' hy' hne
    have hin' : ¬ (x' < 0 ∨ y' < 0 ∨ (d.width : Int) ≤ x' ∨ (d.height : Int) ≤ y') := by
      omega
    unfold Display.putPoint Display.getPoint
    rw [if_neg hin, if_neg hin', if_neg hin']
    dsimp only [Display.getIndex]
    have hidx : ¬ (y'.toNat * d.width + x'.toNat = y.toNat * d.width + x.toNat) := by
      intro hcontra
      have := Display.getIndex_inj d x'.toNat y'.toNat x.toNat y.toNat
        (by omega) (by omega) hcontra
      omega
    rw [if_neg hidx]

/-- witness for C10 on a 2x4 canvas at coordinate (1, 2), probing the
distinct in-bounds coordinate (0, 2). -/
theorem putPoint_getPoint_roundtrip_witness :
    ((Display.make 2 4 Color.Default).putPoint 1 2
      (Color.makeSOG 3)).getPoint 1 2 = Color.makeSOG 3 ∧
    ((Display.make 2 4 Color.Default).putPoint 1 2
      (Color.makeSOG 3)).getPoint 0 2 =
      (Display.make 2 4 Color.Default).getPoint 0 2 :=
  ⟨(putPoint_getPoint_roundtrip (Display.make 2 4 Color.Default) 1 2
      (Color.makeSOG 3) (by decide) (by decide) (by decide) (by decide)).1,
   (putPoint_getPoint_roundtrip (Display.make 2 4 Color.Default) 1 2
      (Color.makeSOG 3) (by decide) (by decide) (by decide) (by decide)).2
     0 2 (by decide) (by decide) (by decide) (by decide) (by decide)⟩

/-- the per-cell write of the source compositor agrees with the spec's
three rules. -/
theorem compositeCell_eq_spec (d : Display) (col r : Nat) :
    d.compositeCell col r = compositeSpecRules
      (d.getPoint (col : Int) ((2 * r : Nat) : Int))
      (d.getPoint (col : Int) ((2 * r + 1 : Nat) : Int)) := by
  have key : ∀ top bot : Color,
      (if bot = Color.Default then
        if bot = top then CellWrite.mk EmptyCell bot top
        else CellWrite.mk Pixel (Color.reversed top) bot
      else CellWrite.mk Pixel bot top) = compositeSpecRules top bot := by
    intro top bot
    unfold compositeSpecRules
    by_cases h1 : bot = Color.Default <;> by_cases h2 : bot = top <;>
      simp_all [eq_comm]
  unfold Display.compositeCell
  exact key _ _

/-- `countP` distributes over `flatMap` as a sum of per-chunk counts. -/
theorem countP_flatMap_eq {α β : Type} (f : α → List β) (p : β → Bool)
    (l : List α) :
    (l.flatMap f).countP p = (l.map (fun a => (f a).countP p)).sum := by
  induction l with
  | nil => simp
  | cons a t ih => simp [List.flatMap_cons, List.countP_append, ih]

/-- counting occurrences of a single value in `range n`. -/
theorem countP_range_eq (k n : Nat) :
    (List.range n).countP (fun r => r == k) = if k < n then 1 else 0 := by
  induction n with
  | zero => simp
  | succ m ih =>
    rw [List.range_succ, List.countP_append, ih]
    simp only [List.countP_cons, List.countP_nil]
    by_cases h : k = m
    · subst h
      simp
    · have : (m == k) = false := by simp [h]; omega
      rw [this]
      split_ifs <;> simp_all <;> omega

/-- summing an indicator function over `range n`. -/
theorem sum_map_range_ite (col n v : Nat) :
    ((List.range n).map (fun c => if c = col then v else 0)).sum =
      if col < n then v else 0 := by
  induction n with
  | zero => simp
  | succ m ih =>
    rw [List.range_succ, List.map_append, List.sum_append, ih]
    by_cases h : col = m
    · subst h
      simp
    · simp [h]
      split_ifs <;> simp_all <;> omega

/-- C1: for every terminal cell within the canvas, the compositing loop
emits exactly one cell-write for that cell, and that write is decided by
the spec's three ordered rules applied to the pixels
`top = getPoint(col, 2*row)` and `bot = getPoint(col, 2*row + 1)`. -/
theorem display_composite_rules (d : Display) (col cellRow : Nat)
    (hcol : col < d.width) (hrow : cellRow < (d.height + 1) / 2) :
    d.displayWrites.countP (fun e => e.1 == col && e.2.1 == cellRow) = 1 ∧
    (col, cellRow, compositeSpecRules
      (d.getPoint (col : Int) ((2 * cellRow : Nat) : Int))
      (d.getPoint (col : Int) ((2 * cellRow + 1 : Nat) : Int)))
      ∈ d.displayWrites := by
  constructor
  · unfold Display.displayWrites
    rw [countP_flatMap_eq]
    have hmap : (List.range d.width).map
        (fun c => ((List.range ((d.height + 1) / 2)).map
          (fun r => (c, r, d.compositeCell c r))).countP
            (fun e => e.1 == col && e.2.1 == cellRow)) =
        (List.range d.width).map (fun c => if c = col then 1 else 0) := by
      apply List.map_congr_left
      intro c _
      rw [List.countP_map]
      by_cases hcc : c = col
      · subst hcc
        have : ((fun e : Nat × Nat × CellWrite => e.1 == c && e.2.1 == cellRow)
            ∘ (fun r => (c, r, d.compositeCell c r))) =
            fun r => r == cellRow := by
          funext r
          simp
        rw [this, countP_range_eq, if_pos hrow, if_pos rfl]
      · have : ((fun e : Nat × Nat × CellWrite => e.1 == col && e.2.1 == cellRow)
            ∘ (fun r => (c, r, d.compositeCell c r))) = fun _ => false := by
          funext r
          simp [hcc]
        rw [this, if_neg hcc]
        simp [List.countP_eq_zero]
    rw [hmap, sum_map_range_ite, if_pos hcol]
  · unfold Display.displayWrites
    rw [List.mem_flatMap]
    refine ⟨col, List.mem_range.mpr hcol, ?_⟩
    rw [List.mem_map]
    exact ⟨cellRow, List.mem_range.mpr hrow, by rw [compositeCell_eq_spec]⟩

/-- witness for C1: the spec's own 1x2-pixel scenario - `top = RGB(5,0,0)`,
`bot = Default` - emits exactly one cell-write, given by the spec rules
(rule 2: half-block glyph, foreground `top.reversed()`, background
`Default`). -/
theorem display_composite_rules_witness :
    ((Display.make 1 2 Color.Default).putPoint 0 0
        (Color.ofTermRGB (TermRGB.make 5 0 0))).displayWrites.countP
      (fun e => e.1 == 0 && e.2.1 == 0) = 1 ∧
    (0, 0, compositeSpecRules
      (((Display.make 1 2 Color.Default).putPoint 0 0
        (Color.ofTermRGB (TermRGB.make 5 0 0))).getPoint ((0 : Nat) : Int)
        ((2 * 0 : Nat) : Int))
      (((Display.make 1 2 Color.Default).putPoint 0 0
        (Color.ofTermRGB (TermRGB.make 5 0 0))).getPoint ((0 : Nat) : Int)
        ((2 * 0 + 1 : Nat) : Int)))
      ∈ ((Display.make 1 2 Color.Default).putPoint 0 0
        (Color.ofTermRGB (TermRGB.make 5 0 0))).displayWrites :=
  display_composite_rules
    ((Display.make 1 2 Color.Default).putPoint 0 0
      (Color.ofTermRGB (TermRGB.make 5 0 0))) 0 0 (by decide) (by decide)
